import Mathlib

/-!
Shallow embedding of the `maskmm` repository's dataset adapter
(`maskr/datagen/dataset.py`) and model assembly
(`maskmm/models/maskrcnn.py`).

Representation choices:
* a per-instance binary mask (numpy `[h, w]` slice of the `[h, w, N]`
  mask array) is a `List (List Bool)`; the instance dimension is a
  `List Mask`, so the `[h,w,N] -> [N,h,w]` transpose at the end of
  `load_image_gt` and the final float casts are representation changes
  with no content, and are not re-modelled;
* boxes are `(y1, x1, y2, x2)` tuples of naturals (pixel indices);
* class ids are integers (the trailing cast to float32 is representational);
* numpy parallel-array filtering with a shared index set `ix` is modelled
  as filtering the zipped list of (class_id, mask, box) triples, which is
  equivalent when the parallel arrays have one entry per instance;
* Python float division in the divisibility check `h / 2**6 != int(h / 2**6)`
  is modelled exactly, i.e. as non-divisibility by `2^6`;
* external collaborators that the spec places out of scope (image resize,
  augmentation, network layers, file system, randomness) are explicit
  function parameters, so every theorem quantifies over them.
-/

/-- A single instance mask: rows of booleans (nonzero pixels are `true`). -/
abbrev Mask := List (List Bool)

/-- A box `(y1, x1, y2, x2)` in pixel coordinates. -/
abbrev Box := Nat × Nat × Nat × Nat

/-- The all-zero box used as padding. -/
def zeroBox : Box := (0, 0, 0, 0)

/-- An all-zero (all-`false`) mask of the given `(h, w)` shape. -/
def zeroMask (shape : Nat × Nat) : Mask :=
  List.replicate shape.1 (List.replicate shape.2 false)

/-- Validity predicate on boxes: `bbox.any(axis=1)` in the source, true when
some coordinate is nonzero. -/
def boxAny (b : Box) : Bool :=
  decide (b.1 ≠ 0) || decide (b.2.1 ≠ 0) || decide (b.2.2.1 ≠ 0) || decide (b.2.2.2 ≠ 0)

/-- Validity predicate on masks: `mask.any(axis=(0,1))` in the source, true
when some pixel is nonzero. -/
def maskAny (m : Mask) : Bool :=
  m.any (fun row => row.any id)

/-- Row indices of a mask that contain a nonzero pixel
(`np.where(np.any(m, axis=1))[0]`), in ascending order. -/
def rowAnyIdx (m : Mask) : List Nat :=
  (List.range m.length).filter (fun i => (m.getD i []).any id)

/-- Width bound of a (possibly ragged) mask: the longest row length. -/
def maxW (m : Mask) : Nat :=
  m.foldr (fun r acc => max r.length acc) 0

/-- Column indices of a mask that contain a nonzero pixel
(`np.where(np.any(m, axis=0))[0]`), in ascending order. -/
def colAnyIdx (m : Mask) : List Nat :=
  (List.range (maxW m)).filter (fun j => m.any (fun r => r.getD j false))

/-- Modelled from the spec: `box_utils.extract_bboxes` is not under `src/`.
The spec's data model states the box "is an axis-aligned rectangle derived
from `mask`'s nonzero extent": the first/last nonzero row and column give
`(y1, x1, y2+1, x2+1)`, and a mask with no nonzero pixel gives the all-zero
box. -/
def extract_bbox (m : Mask) : Box :=
  match rowAnyIdx m, colAnyIdx m with
  | [], _ => zeroBox
  | _, [] => zeroBox
  | r :: rs, c :: cs =>
      ((r :: rs).headD 0, (c :: cs).headD 0,
       (r :: rs).getLastD 0 + 1, (c :: cs).getLastD 0 + 1)

/-- Per-instance form of `box_utils.extract_bboxes` over the instance list. -/
def extract_bboxes (ms : List Mask) : List Box :=
  ms.map extract_bbox

/-- Modelled from the spec: `batch.pad` (maskr.utils.batch) is not under
`src/`. The spec requires "per-image variable-length sets of boxes/masks are
always converted to fixed-size padded tensors before batching": the first
dimension is extended to `n` with zero entries. -/
def pad (zero : α) (xs : List α) (n : Nat) : List α :=
  xs ++ List.replicate (n - xs.length) zero

/-- Configuration fields used by the embedded code (a subset of the
repository's `Config`). `IMAGE_SHAPE` keeps its leading `(h, w)`. -/
structure Config where
  NAME : String
  MAX_GT_INSTANCES : Nat
  USE_MINI_MASK : Bool
  MINI_MASK_SHAPE : Nat × Nat
  MASK_SHAPE : Nat × Nat
  IMAGE_SHAPE : Nat × Nat
  AUGMENT : Bool
  HEAD : Bool
  POOL_SIZE : Nat
  MASK_POOL_SIZE : Nat
  POST_NMS_ROIS_TRAINING : Nat
  POST_NMS_ROIS_INFERENCE : Nat
  ANCHORS : List Box

section DatasetAdapter

/-- One entry of `Dataset.class_info`. -/
structure ClassInfo where
  source : String
  id : Int
  name : String
deriving DecidableEq

/-- `Dataset.add_class`: refuses a source containing a dot (the dot test is
membership of `'.'` among the source's characters), skips a `(source, id)`
pair already present, otherwise appends the new class. -/
def add_class (class_info : List ClassInfo) (source : String) (class_id : Int)
    (class_name : String) : Except String (List ClassInfo) :=
  if source.data.contains '.' then
    .error "Source name cannot contain a dot"
  else if class_info.any (fun info => info.source = source && info.id = class_id) then
    .ok class_info
  else
    .ok (class_info ++ [{ source := source, id := class_id, name := class_name }])

/-- The subsampling step of `Dataset.load_image_gt` (lines 200-205): when
there are more instances than `MAX_GT_INSTANCES`, keep the instances at the
index list `ids` drawn by `np.random.choice(..., replace=False)`; the random
draw itself is external, so `ids` is a parameter. -/
def subsampleGt (maxGt : Nat) (ids : List Nat) (class_ids : List Int)
    (mask : List Mask) : List Int × List Mask :=
  if class_ids.length > maxGt then
    (ids.map (fun i => class_ids.getD i 0), ids.map (fun i => mask.getD i []))
  else
    (class_ids, mask)

/-- An abstract image tensor (its contents are opaque to the embedded code). -/
abbrev Image := List Int

/-- External collaborators of the dataset adapter, out of the spec's core
scope (image resize, augmentation, mini-mask compression, RPN target build).
`resizeImage` returns `(image, window, scale, padding)`; `resizeMask1` is
`image_utils.resize_mask` restricted to one instance slice; `mini` is
`image_utils.minimize_mask` restricted to one instance (given its box and the
mini shape); `buildRpnTargets` returns `(rpn_match, rpn_bbox)`. -/
structure Externals where
  resizeImage : Config → Image → Image × Box × Nat × Nat
  resizeMask1 : Nat → Nat → Mask → Mask
  augmentFn : Image → List Mask → Image × List Mask
  moldImage : Config → Image → Image
  mini : Box → Nat × Nat → Mask → Mask
  buildRpnTargets : List Box → List Int → List Box → List Int × List Box

/-- Modelled from the spec: `image_utils.mold_meta` is not under `src/`. The
spec's output contract says "image_metadata must encode at minimum the resize
window", so the metadata is the window itself. -/
def mold_meta (window : Box) : Box := window

/-- The box/filter block of `Dataset.load_image_gt` (dataset.py lines
219-236) over the zipped (class_id, mask) pairs: extract a box from every
mask, drop instances whose box is all-zero (augmentation can empty a mask),
optionally compress each mask to a mini-mask, then drop instances whose mask
became empty. Each element of the result is `((class_id, mask), box)`. -/
def gtFilter (mini : Box → Nat × Nat → Mask → Mask) (mini_shape : Nat × Nat)
    (use_mini_mask : Bool) (class_ids : List Int) (mask : List Mask) :
    List ((Int × Mask) × Box) :=
  let bbox := extract_bboxes mask
  let trip1 := ((class_ids.zip mask).zip bbox).filter (fun t => boxAny t.2)
  let trip2 := if use_mini_mask then
      trip1.map (fun t => ((t.1.1, mini t.2 mini_shape t.1.2), t.2))
    else trip1
  trip2.filter (fun t => maskAny t.1.2)

/-- `Dataset.load_image_gt` (dataset.py lines 178-246): subsample over-full
annotations, resize image and mask, build the metadata from the resize
window, optionally augment, mold the image, run the box/filter block
(`gtFilter`), and return `(image, image_meta, class_ids, bbox, mask)`. -/
def load_image_gt (ext : Externals) (config : Config) (ids : List Nat)
    (image0 : Image) (mask0 : List Mask) (class_ids0 : List Int)
    (use_mini_mask : Bool) :
    Image × Box × List Int × List Box × List Mask :=
  let sub := subsampleGt config.MAX_GT_INSTANCES ids class_ids0 mask0
  let class_ids := sub.1
  let mask := sub.2
  let resized := ext.resizeImage config image0
  let image := resized.1
  let window := resized.2.1
  let scale := resized.2.2.1
  let padding := resized.2.2.2
  let mask := mask.map (ext.resizeMask1 scale padding)
  let image_meta := mold_meta window
  let aug := if config.AUGMENT then ext.augmentFn image mask else (image, mask)
  let image := aug.1
  let mask := aug.2
  let image := ext.moldImage config image
  let trip := gtFilter ext.mini config.MINI_MASK_SHAPE use_mini_mask class_ids mask
  (image, image_meta, trip.map (fun t => t.1.1), trip.map (fun t => t.2),
   trip.map (fun t => t.1.2))

/-- The record `Dataset.__getitem__` returns (before the fastai `, 0`), with
fields in the source's order
`[image, image_metas, rpn_match, rpn_bbox, gt_class_ids, gt_boxes, gt_masks]`. -/
structure DatasetItem where
  image : Image
  image_metas : Box
  rpn_match : List Int
  rpn_bbox : List Box
  gt_class_ids : List Int
  gt_boxes : List Box
  gt_masks : List Mask

/-- `Dataset.__getitem__` (dataset.py lines 154-173): load ground truth,
build RPN targets, zero-pad the variable-length ground-truth tensors to
`MAX_GT_INSTANCES` so the dataloader can stack a batch, and return the record
together with the constant `0` that fastai requires as a "y". -/
def getitem (ext : Externals) (config : Config) (ids : List Nat)
    (image0 : Image) (mask0 : List Mask) (class_ids0 : List Int) :
    DatasetItem × Nat :=
  let gt := load_image_gt ext config ids image0 mask0 class_ids0 config.USE_MINI_MASK
  let image := gt.1
  let image_metas := gt.2.1
  let gt_class_ids := gt.2.2.1
  let gt_boxes := gt.2.2.2.1
  let gt_masks := gt.2.2.2.2
  let rpn := ext.buildRpnTargets config.ANCHORS gt_class_ids gt_boxes
  let gt_class_ids := pad (0 : Int) gt_class_ids config.MAX_GT_INSTANCES
  let gt_boxes := pad zeroBox gt_boxes config.MAX_GT_INSTANCES
  let mask_shape := if config.USE_MINI_MASK then config.MINI_MASK_SHAPE else config.MASK_SHAPE
  let gt_masks := pad (zeroMask mask_shape) gt_masks config.MAX_GT_INSTANCES
  ({ image := image, image_metas := image_metas, rpn_match := rpn.1,
     rpn_bbox := rpn.2, gt_class_ids := gt_class_ids, gt_boxes := gt_boxes,
     gt_masks := gt_masks }, 0)

/-- The default `Dataset.load_mask` (dataset.py lines 147-152): an empty mask
array `np.empty([0,0,0])` and empty class ids, i.e. zero instances. -/
def default_load_mask : List Mask × List Int := ([], [])

end DatasetAdapter

section Model

/-- An abstract activation tensor flowing between network layers. -/
abbrev Tensor := List Int

/-- A model state dict (weights), keyed by parameter name. -/
abbrev StateDict := List (String × Int)

/-- The mutable state of a `MaskRCNN` module that the embedded methods
touch: its config, directories, epoch counter and weights. The network
layers themselves (ResNet/FPN/RPN/heads) are external collaborators. -/
structure MaskRCNNState where
  config : Config
  model_dir : String
  epoch : Nat
  log_dir : String
  checkpoint_path : String
  weights : StateDict

/-- `MaskRCNN.set_log_dir` (maskrcnn.py lines 211-246): reset the epoch to 0,
or when a model path parses against the checkpoint-name regex, take the epoch
from it; rebuild `log_dir` from the model dir, the lowercased config name and
the current time, and derive `checkpoint_path`. The regex match and the
clock are external (`parseEpoch`, `now`). -/
def set_log_dir (parseEpoch : String → Option Nat) (now : String)
    (st : MaskRCNNState) (model_path : Option String) : MaskRCNNState :=
  let epoch := match model_path with
    | some p => (parseEpoch p).getD 0
    | none => 0
  let log_dir := st.model_dir ++ "/" ++ st.config.NAME.toLower ++ now
  let checkpoint_path := log_dir ++ "/mask_rcnn_" ++ st.config.NAME.toLower ++ "_{:04d}.pth"
  { st with epoch := epoch, log_dir := log_dir, checkpoint_path := checkpoint_path }

/-- `MaskRCNN.__init__` (maskrcnn.py lines 33-67): store config and model
dir, set the log dir, and raise unless both image dimensions are divisible
by `2` six times (`h / 2**6 != int(h / 2**6)` under exact arithmetic is
non-divisibility by `2^6`); layer construction is external and supplies the
initial `weights`. The source calls `set_log_dir` just before the check;
that call is pure here, so the check is written as the outer branch with no
semantic change. -/
def maskrcnn_init (parseEpoch : String → Option Nat) (now : String)
    (initWeights : StateDict) (config : Config) (model_dir : String) :
    Except String MaskRCNNState :=
  if config.IMAGE_SHAPE.1 % 2 ^ 6 ≠ 0 ∨ config.IMAGE_SHAPE.2 % 2 ^ 6 ≠ 0 then
    .error "Image size must be dividable by 2 at least 6 times"
  else
    .ok (set_log_dir parseEpoch now
      { config := config, model_dir := model_dir, epoch := 0, log_dir := "",
        checkpoint_path := "", weights := initWeights } none)

/-- `self.load_state_dict(state_dict, strict=False)`: parameters present in
the loaded dict replace the model's, the rest keep their values. -/
def load_state_dict (w sd : StateDict) : StateDict :=
  w.map (fun p => match sd.find? (fun q => q.1 = p.1) with
    | some q => (p.1, q.2)
    | none => p)

/-- `MaskRCNN.load_weights` (maskrcnn.py lines 273-288): when the file exists
load its state dict into the model, otherwise print "Weight file not found"
and leave the weights alone; in both cases update the log directory from the
file path. The file system and `torch.load` are external (`fsExists`,
`torchLoad`); the returned list holds the printed messages. -/
def load_weights (fsExists : String → Bool) (torchLoad : String → StateDict)
    (parseEpoch : String → Option Nat) (now : String)
    (st : MaskRCNNState) (filepath : String) : MaskRCNNState × List String :=
  let step := if fsExists filepath then
      ({ st with weights := load_state_dict st.weights (torchLoad filepath) },
       ([] : List String))
    else
      (st, ["Weight file not found ..."])
  let st' := set_log_dir parseEpoch now step.1 (some filepath)
  (st', step.2)

/-- The external network layers and filter components `MaskRCNN.forward`
invokes: backbone pyramid, per-level RPN, proposal filter, head-target
builder, ROI alignment, classifier and mask heads, and detection filter.
`getDetections` returns `(boxes, class_ids, scores, rois)`. -/
structure Nets where
  fpn : Tensor → List Tensor
  rpn : Tensor → Tensor × Tensor × Tensor
  proposals : Tensor → Tensor → Nat → Config → List Box
  buildHeadTargets : List Box → Tensor → List Box → List Mask → Config →
    List Box × Tensor × Tensor × List Mask
  roialign : List Box → List Tensor → Nat → Nat × Nat → Tensor
  classifier : Tensor → Tensor × Tensor × Tensor
  maskHead : Tensor → List Mask
  getDetections : List Box → Tensor → Tensor → Box → Config →
    List Box × Tensor × Tensor × List Box

/-- The inputs of `MaskRCNN.forward`: the source branches on
`len(inputs) > 2`, i.e. on whether dataloader targets accompany the images. -/
inductive FwdInputs where
  | train (images : Tensor) (image_metas : Box)
      (tgt_rpn_match : Tensor) (tgt_rpn_bbox : Tensor)
      (gt_class_ids : Tensor) (gt_boxes : List Box) (gt_masks : List Mask)
  | infer (images : Tensor) (image_metas : Box)

/-- The `dict(out=[...])` returned by the training branch of
`MaskRCNN.forward`, fields in the source's list order. -/
structure TrainOut where
  tgt_rpn_match : Tensor
  tgt_rpn_bbox : Tensor
  rpn_class_logits : Tensor
  rpn_bbox : Tensor
  target_class_ids : Tensor
  target_deltas : Tensor
  target_mask : List Mask
  mrcnn_class_logits : Tensor
  mrcnn_deltas : Tensor
  mrcnn_mask : List Mask

/-- The possible results of `MaskRCNN.forward`. -/
inductive FwdOut where
  | train (out : TrainOut)
  | infer (boxes : List Box) (class_ids : Tensor) (scores : Tensor) (masks : List Mask)

/-- The RPN stage of `MaskRCNN.forward` (lines 86-100): run the backbone,
apply the RPN to each pyramid level and concatenate the per-level outputs,
giving `(feature_maps, rpn_class_logits, rpn_class, rpn_bbox)`. -/
def rpnStage (nets : Nets) (images : Tensor) :
    List Tensor × Tensor × Tensor × Tensor :=
  let feature_maps := nets.fpn images
  let layer_outputs := feature_maps.map nets.rpn
  (feature_maps,
   (layer_outputs.map (fun o => o.1)).flatten,
   (layer_outputs.map (fun o => o.2.1)).flatten,
   (layer_outputs.map (fun o => o.2.2)).flatten)

/-- The proposal stage of `MaskRCNN.forward` (lines 102-107): the proposal
count depends on `self.training`, and the proposal filter produces the
zero-padded ROI set. -/
def proposalStage (nets : Nets) (config : Config) (training : Bool)
    (images : Tensor) : List Box :=
  let s := rpnStage nets images
  let proposal_count := if training then config.POST_NMS_ROIS_TRAINING
    else config.POST_NMS_ROIS_INFERENCE
  nets.proposals s.2.2.1 s.2.2.2 proposal_count config

/-- `MaskRCNN.forward` (maskrcnn.py lines 69-152). Training inputs carry the
targets through to the output dict; with `HEAD` disabled only the RPN parts
are returned (the source would hit an unbound `tgt_rpn_match` in inference
with `HEAD` disabled, modelled as the error case). In training the head
targets are built, the classifier and mask heads run on the target ROIs; in
inference the detection filter runs after the classifier and the mask head
runs on the ROIs the filter kept. -/
def forward (nets : Nets) (config : Config) (training : Bool)
    (inputs : FwdInputs) : Except String FwdOut :=
  match inputs with
  | .train images _image_metas tgt_rpn_match tgt_rpn_bbox gt_class_ids gt_boxes gt_masks =>
    let s := rpnStage nets images
    let feature_maps := s.1
    let rpn_class_logits := s.2.1
    let rpn_bbox := s.2.2.2
    let rpn_rois := proposalStage nets config training images
    if config.HEAD = false then
      .ok (.train {
            tgt_rpn_match := tgt_rpn_match, tgt_rpn_bbox := tgt_rpn_bbox,
            rpn_class_logits := rpn_class_logits, rpn_bbox := rpn_bbox,
            target_class_ids := [], target_deltas := [], target_mask := [],
            mrcnn_class_logits := [], mrcnn_deltas := [], mrcnn_mask := [] })
    else
      let ht := nets.buildHeadTargets rpn_rois gt_class_ids gt_boxes gt_masks config
      let rois := ht.1
      let x := nets.roialign rois feature_maps.dropLast config.POOL_SIZE config.IMAGE_SHAPE
      let cls := nets.classifier x
      let xm := nets.roialign rois feature_maps.dropLast config.MASK_POOL_SIZE config.IMAGE_SHAPE
      let mrcnn_mask := nets.maskHead xm
      .ok (.train {
            tgt_rpn_match := tgt_rpn_match, tgt_rpn_bbox := tgt_rpn_bbox,
            rpn_class_logits := rpn_class_logits, rpn_bbox := rpn_bbox,
            target_class_ids := ht.2.1, target_deltas := ht.2.2.1,
            target_mask := ht.2.2.2, mrcnn_class_logits := cls.1,
            mrcnn_deltas := cls.2.2, mrcnn_mask := mrcnn_mask })
  | .infer images image_metas =>
    let s := rpnStage nets images
    let feature_maps := s.1
    let rpn_rois := proposalStage nets config training images
    if config.HEAD = false then
      .error "NameError: tgt_rpn_match is not defined"
    else
      let rois := rpn_rois
      let x := nets.roialign rois feature_maps.dropLast config.POOL_SIZE config.IMAGE_SHAPE
      let cls := nets.classifier x
      let det := nets.getDetections rois cls.2.1 cls.2.2 image_metas config
      let boxes := det.1
      let class_ids := det.2.1
      let scores := det.2.2.1
      let rois' := det.2.2.2
      let xm := nets.roialign rois' feature_maps.dropLast config.MASK_POOL_SIZE config.IMAGE_SHAPE
      let masks := nets.maskHead xm
      .ok (.infer boxes class_ids scores masks)

end Model

section Fixtures

/-- A small concrete configuration with 64-divisible image dimensions. -/
def config0 : Config :=
  { NAME := "shapes", MAX_GT_INSTANCES := 2, USE_MINI_MASK := false,
    MINI_MASK_SHAPE := (2, 2), MASK_SHAPE := (4, 4), IMAGE_SHAPE := (256, 320),
    AUGMENT := false, HEAD := true, POOL_SIZE := 7, MASK_POOL_SIZE := 14,
    POST_NMS_ROIS_TRAINING := 3, POST_NMS_ROIS_INFERENCE := 4, ANCHORS := [] }

/-- `config0` with an image height that is not a multiple of 64. -/
def config100 : Config :=
  { config0 with IMAGE_SHAPE := (100, 320) }

/-- A concrete model state over `config0` with one named weight. -/
def st0 : MaskRCNNState :=
  { config := config0, model_dir := "logs", epoch := 0, log_dir := "",
    checkpoint_path := "", weights := [("a", 1)] }

/-- Concrete external collaborators for the dataset adapter: identity resize
and augmentation, identity mini-mask compression, empty RPN targets. -/
def ext0 : Externals :=
  { resizeImage := fun _ img => (img, zeroBox, 1, 0),
    resizeMask1 := fun _ _ m => m,
    augmentFn := fun img ms => (img, ms),
    moldImage := fun _ img => img,
    mini := fun _ _ m => m,
    buildRpnTargets := fun _ _ _ => ([], []) }

/-- Concrete network collaborators that return empty tensors everywhere. -/
def nets0 : Nets :=
  { fpn := fun _ => [], rpn := fun _ => ([], [], []),
    proposals := fun _ _ _ _ => [],
    buildHeadTargets := fun _ _ _ _ _ => ([], [], [], []),
    roialign := fun _ _ _ _ => [],
    classifier := fun _ => ([], [], []),
    maskHead := fun _ => [],
    getDetections := fun _ _ _ _ _ => ([], [], [], []) }

end Fixtures

section Lemmas

/-- A mask has no nonzero-row index exactly when it has no nonzero pixel. -/
theorem rowAnyIdx_eq_nil_iff (m : Mask) : rowAnyIdx m = [] ↔ maskAny m = false := by
  unfold rowAnyIdx maskAny
  rw [List.filter_eq_nil_iff, List.any_eq_false]
  constructor
  · intro h row hrow
    rcases List.mem_iff_getElem.mp hrow with ⟨i, hi, rfl⟩
    have hmem := h i (List.mem_range.mpr hi)
    rw [List.getD_eq_getElem _ _ hi] at hmem
    exact hmem
  · intro h i hi
    have hi' := List.mem_range.mp hi
    rw [List.getD_eq_getElem _ _ hi']
    exact h _ (List.getElem_mem hi')

/-- Every row of a mask is no longer than the mask's width bound. -/
theorem length_le_maxW {m : Mask} {row : List Bool} (h : row ∈ m) :
    row.length ≤ maxW m := by
  induction m with
  | nil => cases h
  | cons r m ih =>
    rcases List.mem_cons.mp h with rfl | h
    · exact le_max_left _ _
    · exact le_trans (ih h) (le_max_right _ _)

/-- A mask with a nonzero pixel has a nonzero-column index. -/
theorem colAnyIdx_ne_nil (m : Mask) (h : maskAny m = true) : colAnyIdx m ≠ [] := by
  unfold maskAny at h
  rcases List.any_eq_true.mp h with ⟨row, hrow, hany⟩
  rcases List.any_eq_true.mp hany with ⟨x, hx, hxid⟩
  rcases List.mem_iff_getElem.mp hx with ⟨j, hj, rfl⟩
  intro hnil
  rw [colAnyIdx, List.filter_eq_nil_iff] at hnil
  refine hnil j (List.mem_range.mpr (lt_of_lt_of_le hj (length_le_maxW hrow))) ?_
  refine List.any_eq_true.mpr ⟨row, hrow, ?_⟩
  rw [List.getD_eq_getElem _ _ hj]
  exact hxid

/-- The box extracted from a mask passes the all-zero-box validity predicate
exactly when the mask has a nonzero pixel. -/
theorem boxAny_extract_bbox (m : Mask) : boxAny (extract_bbox m) = maskAny m := by
  unfold extract_bbox
  cases hr : rowAnyIdx m with
  | nil =>
    have hm := (rowAnyIdx_eq_nil_iff m).mp hr
    simp [hm, boxAny, zeroBox]
  | cons r rs =>
    have hm : maskAny m = true := by
      cases hmm : maskAny m with
      | true => rfl
      | false =>
        have hnil := (rowAnyIdx_eq_nil_iff m).mpr hmm
        rw [hnil] at hr
        cases hr
    cases hc : colAnyIdx m with
    | nil => exact absurd hc (colAnyIdx_ne_nil m hm)
    | cons c cs => simp [boxAny, hm]

/-- In the zipped (class, mask, box) triple list built by `gtFilter`, every
box component is the box extracted from its own mask component. -/
theorem zip_extract_invariant (cs : List Int) (ms : List Mask) :
    ∀ t ∈ (cs.zip ms).zip (extract_bboxes ms), t.2 = extract_bbox t.1.2 := by
  induction cs generalizing ms with
  | nil => intro t ht; simp at ht
  | cons c cs ih =>
    cases ms with
    | nil => intro t ht; simp [extract_bboxes] at ht
    | cons m ms =>
      intro t ht
      rcases List.mem_cons.mp ht with rfl | ht
      · rfl
      · exact ih ms t ht

/-- Characterisation of the instances `gtFilter` keeps: the box is valid, the
mask is non-empty, and the box was extracted from the full-resolution mask
the kept mask came from (the mask itself when mini-masks are off). -/
theorem gtFilter_mem (mini : Box → Nat × Nat → Mask → Mask)
    (mini_shape : Nat × Nat) (use_mini_mask : Bool)
    (cs : List Int) (ms : List Mask) :
    ∀ t ∈ gtFilter mini mini_shape use_mini_mask cs ms,
      boxAny t.2 = true ∧ maskAny t.1.2 = true ∧
      ∃ m0, t.2 = extract_bbox m0 ∧
        t.1.2 = (if use_mini_mask then mini t.2 mini_shape m0 else m0) := by
  intro t ht
  unfold gtFilter at ht
  rcases List.mem_filter.mp ht with ⟨ht2, hmask⟩
  cases use_mini_mask with
  | false =>
    simp only [if_neg Bool.false_ne_true] at ht2 ⊢
    rcases List.mem_filter.mp ht2 with ⟨htz, hbox⟩
    exact ⟨hbox, hmask, t.1.2, zip_extract_invariant cs ms t htz, rfl⟩
  | true =>
    simp only [if_pos rfl] at ht2 ⊢
    rcases List.mem_map.mp ht2 with ⟨s, hs, rfl⟩
    rcases List.mem_filter.mp hs with ⟨hsz, hbox⟩
    exact ⟨hbox, hmask, s.1.2, zip_extract_invariant cs ms s hsz, rfl⟩

/-- `gtFilter` keeps at most one entry per input class id. -/
theorem gtFilter_length_le (mini : Box → Nat × Nat → Mask → Mask)
    (mini_shape : Nat × Nat) (use_mini_mask : Bool)
    (cs : List Int) (ms : List Mask) :
    (gtFilter mini mini_shape use_mini_mask cs ms).length ≤ cs.length := by
  unfold gtFilter
  have hz : ((cs.zip ms).zip (extract_bboxes ms)).length ≤ cs.length := by
    simp only [List.length_zip, extract_bboxes, List.length_map]
    omega
  have h1 := List.length_filter_le (fun t => boxAny t.2)
    ((cs.zip ms).zip (extract_bboxes ms))
  refine le_trans (List.length_filter_le _ _) (le_trans ?_ (le_trans h1 hz))
  cases use_mini_mask <;> simp

/-- Characterisation of the three output lists built from `gtFilter`: boxes
all pass the validity predicate, masks are all non-empty, with mini-masks off
each box is extracted from the returned mask itself, and with mini-masks on
each box is extracted from the full-resolution mask the returned mini-mask
was compressed from. -/
theorem gtFilter_outputs (mini : Box → Nat × Nat → Mask → Mask)
    (sh : Nat × Nat) (umm : Bool) (cs : List Int) (ms : List Mask) :
    (∀ b ∈ (gtFilter mini sh umm cs ms).map (fun t => t.2), boxAny b = true) ∧
    (∀ m ∈ (gtFilter mini sh umm cs ms).map (fun t => t.1.2), maskAny m = true) ∧
    (umm = false →
      (gtFilter mini sh umm cs ms).map (fun t => t.2) =
        ((gtFilter mini sh umm cs ms).map (fun t => t.1.2)).map extract_bbox) ∧
    (umm = true → ∀ k, k < ((gtFilter mini sh umm cs ms).map (fun t => t.2)).length →
      ∃ m0, ((gtFilter mini sh umm cs ms).map (fun t => t.2)).getD k zeroBox =
          extract_bbox m0 ∧
        ((gtFilter mini sh umm cs ms).map (fun t => t.1.2)).getD k [] =
          mini (((gtFilter mini sh umm cs ms).map (fun t => t.2)).getD k zeroBox)
            sh m0) := by
  refine ⟨?_, ?_, ?_, ?_⟩
  · intro b hb
    rcases List.mem_map.mp hb with ⟨t, ht, rfl⟩
    exact (gtFilter_mem mini sh umm cs ms t ht).1
  · intro m hm
    rcases List.mem_map.mp hm with ⟨t, ht, rfl⟩
    exact (gtFilter_mem mini sh umm cs ms t ht).2.1
  · intro h
    subst h
    have key : ∀ t ∈ gtFilter mini sh false cs ms, t.2 = extract_bbox t.1.2 := by
      intro t ht
      rcases gtFilter_mem mini sh false cs ms t ht with ⟨_, _, m0, hb, hm⟩
      rw [if_neg Bool.false_ne_true] at hm
      rw [hb, hm]
    rw [List.map_map, List.map_congr_left key]
    rfl
  · intro h k hk
    subst h
    have hk' : k < (gtFilter mini sh true cs ms).length := by
      simpa using hk
    have ht : (gtFilter mini sh true cs ms).get ⟨k, hk'⟩ ∈ gtFilter mini sh true cs ms :=
      List.get_mem _ _ hk'
    rcases gtFilter_mem mini sh true cs ms _ ht with ⟨_, _, m0, hb, hm⟩
    rw [if_pos rfl] at hm
    refine ⟨m0, ?_, ?_⟩
    · rw [List.getD_eq_getElem _ _ hk, List.getElem_map]
      exact hb
    · rw [List.getD_eq_getElem _ _ (by simpa using hk'), List.getElem_map,
        List.getD_eq_getElem _ _ hk, List.getElem_map]
      exact hm

/-- `gtFilter` of an empty class list is empty. -/
theorem gtFilter_nil (mini : Box → Nat × Nat → Mask → Mask)
    (mini_shape : Nat × Nat) (use_mini_mask : Bool) (ms : List Mask) :
    gtFilter mini mini_shape use_mini_mask [] ms = [] := by
  cases use_mini_mask <;> rfl

/-- Padding a list that fits the capacity yields exactly the capacity. -/
theorem pad_length {α} (zero : α) (xs : List α) (n : Nat) (h : xs.length ≤ n) :
    (pad zero xs n).length = n := by
  simp [pad, Nat.add_sub_cancel' h]

/-- Beyond the true length, a padded list holds only the zero entry. -/
theorem pad_getD_right {α} (zero : α) (xs : List α) (n k : Nat)
    (h : xs.length ≤ k) :
    (pad zero xs n).getD k zero = zero := by
  unfold pad
  rw [List.getD_append_right _ _ _ _ h]
  rcases Nat.lt_or_ge (k - xs.length) (n - xs.length) with h' | h'
  · rw [List.getD_eq_getElem _ _ (by simpa using h'), List.getElem_replicate]
  · exact List.getD_eq_default _ _ (by simpa using h')

/-- Padding the empty list gives the all-zero list. -/
theorem pad_nil {α} (zero : α) (n : Nat) :
    pad zero ([] : List α) n = List.replicate n zero := by
  simp [pad]

/-- The subsampled class list fits `MAX_GT_INSTANCES` when the drawn index
list has exactly `MAX_GT_INSTANCES` entries. -/
theorem subsampleGt_length_le (maxGt : Nat) (ids : List Nat)
    (cs : List Int) (ms : List Mask) (hids : ids.length = maxGt) :
    (subsampleGt maxGt ids cs ms).1.length ≤ maxGt := by
  unfold subsampleGt
  split
  · simp [hids]
  · next h => simpa using Nat.le_of_not_lt h

/-- The ground-truth instance count `load_image_gt` returns never exceeds
`MAX_GT_INSTANCES` when the subsampling draw has that many indices. -/
theorem load_image_gt_count_le (ext : Externals) (config : Config)
    (ids : List Nat) (image0 : Image) (mask0 : List Mask)
    (class_ids0 : List Int) (use_mini_mask : Bool)
    (hids : ids.length = config.MAX_GT_INSTANCES) :
    (load_image_gt ext config ids image0 mask0 class_ids0 use_mini_mask).2.2.1.length ≤
      config.MAX_GT_INSTANCES := by
  unfold load_image_gt
  simp only [List.length_map]
  exact le_trans (gtFilter_length_le _ _ _ _ _)
    (subsampleGt_length_le _ _ _ _ hids)

end Lemmas

section Claims

/-- C10: `Dataset.add_class` is idempotent: registering a `(source, class_id)`
pair that already exists in `class_info` leaves `class_info` unchanged, so a
repeated registration after a successful one never creates a duplicate. -/
theorem add_class_idempotent (ci : List ClassInfo) (s : String) (cid : Int)
    (nm nm' : String) :
    (s.data.contains '.' = false →
      (∃ info ∈ ci, info.source = s ∧ info.id = cid) →
      add_class ci s cid nm = .ok ci) ∧
    (∀ ci', add_class ci s cid nm = .ok ci' →
      add_class ci' s cid nm' = .ok ci') := by
  constructor
  · intro hdot hmem
    rcases hmem with ⟨info, hinfo, h1, h2⟩
    unfold add_class
    rw [if_neg (by simp only [hdot]; exact Bool.false_ne_true)]
    rw [if_pos (List.any_eq_true.mpr ⟨info, hinfo, by simp [h1, h2]⟩)]
  · intro ci' h
    by_cases hdot : s.data.contains '.' = true
    · unfold add_class at h
      rw [if_pos hdot] at h
      cases h
    · unfold add_class at h ⊢
      rw [if_neg hdot] at h ⊢
      by_cases hany : ci.any (fun info => info.source = s && info.id = cid) = true
      · rw [if_pos hany] at h
        injection h with h
        subst h
        rw [if_pos hany]
      · rw [if_neg hany] at h
        injection h with h
        subst h
        have hnew : (ci ++ [({ source := s, id := cid, name := nm } : ClassInfo)]).any
            (fun info => info.source = s && info.id = cid) = true := by
          refine List.any_eq_true.mpr ⟨_, List.mem_append_right _ (List.mem_singleton.mpr rfl), ?_⟩
          simp
        rw [if_pos hnew]

/-- Witness for C10: re-registering the one class of a concrete table is a
no-op. -/
theorem add_class_idempotent_witness :
    add_class [({ source := "shapes", id := 1, name := "square" } : ClassInfo)]
        "shapes" 1 "square2" =
      .ok [({ source := "shapes", id := 1, name := "square" } : ClassInfo)] :=
  (add_class_idempotent _ "shapes" 1 "square2" "square3").1 (by decide)
    ⟨{ source := "shapes", id := 1, name := "square" }, by simp, rfl, rfl⟩

/-- C3: `MaskRCNN.__init__` succeeds exactly when both image dimensions are
divisible by 2 six times (multiples of 64); on success it stores the config,
and hence the image shape, unchanged. -/
theorem maskrcnn_init_image_shape (parseEpoch : String → Option Nat)
    (now : String) (w0 : StateDict) (config : Config) (model_dir : String) :
    ((∃ st, maskrcnn_init parseEpoch now w0 config model_dir = .ok st) ↔
      (64 ∣ config.IMAGE_SHAPE.1 ∧ 64 ∣ config.IMAGE_SHAPE.2)) ∧
    (∀ st, maskrcnn_init parseEpoch now w0 config model_dir = .ok st →
      st.config = config) := by
  have h64 : (2 : Nat) ^ 6 = 64 := by norm_num
  constructor
  · constructor
    · rintro ⟨st, hst⟩
      unfold maskrcnn_init at hst
      split at hst
      · cases hst
      · next hcond =>
        rw [h64] at hcond
        push_neg at hcond
        exact ⟨Nat.dvd_of_mod_eq_zero hcond.1, Nat.dvd_of_mod_eq_zero hcond.2⟩
    · rintro ⟨h1, h2⟩
      unfold maskrcnn_init
      split
      · next hcond =>
        rw [h64] at hcond
        rcases hcond with hc | hc
        · exact absurd (Nat.eq_zero_of_dvd_of_lt h1 |> fun _ => Nat.mod_eq_zero_of_dvd h1) hc
        · exact absurd (Nat.mod_eq_zero_of_dvd h2) hc
      · exact ⟨_, rfl⟩
  · intro st hst
    unfold maskrcnn_init at hst
    split at hst
    · cases hst
    · injection hst with h
      subst h
      rfl

/-- Witness for C3: a 256 by 320 configuration constructs and keeps its
config unchanged, while a 100 by 320 configuration is rejected. -/
theorem maskrcnn_init_image_shape_witness :
    (∃ st, maskrcnn_init (fun _ => none) "" [] config0 "logs" = .ok st ∧
      st.config = config0) ∧
    ¬ ∃ st, maskrcnn_init (fun _ => none) "" [] config100 "logs" = .ok st := by
  constructor
  · rcases (maskrcnn_init_image_shape (fun _ => none) "" [] config0 "logs").1.mpr
      ⟨by decide, by decide⟩ with ⟨st, hst⟩
    exact ⟨st, hst, (maskrcnn_init_image_shape (fun _ => none) "" [] config0 "logs").2 st hst⟩
  · intro hex
    have h := (maskrcnn_init_image_shape (fun _ => none) "" [] config100 "logs").1.mp hex
    exact absurd h.1 (by decide)

/-- C8: `MaskRCNN.load_weights` never fails on a missing weight file: it
prints the missing-file message and leaves the weights unchanged, and it
merges the loaded state dict exactly when the file exists. -/
theorem load_weights_missing_file (fsExists : String → Bool)
    (torchLoad : String → StateDict) (parseEpoch : String → Option Nat)
    (now : String) (st : MaskRCNNState) (filepath : String) :
    (fsExists filepath = false →
      (load_weights fsExists torchLoad parseEpoch now st filepath).1.weights = st.weights ∧
      (load_weights fsExists torchLoad parseEpoch now st filepath).2 =
        ["Weight file not found ..."]) ∧
    (fsExists filepath = true →
      (load_weights fsExists torchLoad parseEpoch now st filepath).1.weights =
        load_state_dict st.weights (torchLoad filepath) ∧
      (load_weights fsExists torchLoad parseEpoch now st filepath).2 = []) := by
  constructor
  · intro h
    constructor <;> simp [load_weights, set_log_dir, h]
  · intro h
    constructor <;> simp [load_weights, set_log_dir, h]

/-- Witness for C8 at a concrete model state: an always-absent file leaves
the weights untouched and logs the message; an always-present file merges the
loaded dict. -/
theorem load_weights_missing_file_witness :
    ((load_weights (fun _ => false) (fun _ => [("a", 7)]) (fun _ => none) ""
        st0 "w.pth").1.weights = st0.weights ∧
      (load_weights (fun _ => false) (fun _ => [("a", 7)]) (fun _ => none) ""
        st0 "w.pth").2 = ["Weight file not found ..."]) ∧
    (load_weights (fun _ => true) (fun _ => [("a", 7)]) (fun _ => none) ""
      st0 "w.pth").1.weights = [("a", 7)] := by
  refine ⟨(load_weights_missing_file (fun _ => false) (fun _ => [("a", 7)])
    (fun _ => none) "" st0 "w.pth").1 rfl, ?_⟩
  have h := (load_weights_missing_file (fun _ => true) (fun _ => [("a", 7)])
    (fun _ => none) "" st0 "w.pth").2 rfl
  rw [h.1]
  rfl

/-- C2: with zero ground-truth instances (the default `load_mask`), the
pipeline is total: `load_image_gt` returns empty class/box/mask lists, and
`__getitem__` returns fully zero-padded ground-truth tensors. -/
theorem getitem_zero_instances (ext : Externals) (config : Config)
    (ids : List Nat) (image0 : Image) :
    (load_image_gt ext config ids image0 default_load_mask.1 default_load_mask.2
        config.USE_MINI_MASK).2.2.1 = [] ∧
    (load_image_gt ext config ids image0 default_load_mask.1 default_load_mask.2
        config.USE_MINI_MASK).2.2.2.1 = [] ∧
    (load_image_gt ext config ids image0 default_load_mask.1 default_load_mask.2
        config.USE_MINI_MASK).2.2.2.2 = [] ∧
    (getitem ext config ids image0 default_load_mask.1 default_load_mask.2).1.gt_class_ids =
      List.replicate config.MAX_GT_INSTANCES 0 ∧
    (getitem ext config ids image0 default_load_mask.1 default_load_mask.2).1.gt_boxes =
      List.replicate config.MAX_GT_INSTANCES zeroBox ∧
    (getitem ext config ids image0 default_load_mask.1 default_load_mask.2).1.gt_masks =
      List.replicate config.MAX_GT_INSTANCES
        (zeroMask (if config.USE_MINI_MASK then config.MINI_MASK_SHAPE
          else config.MASK_SHAPE)) := by
  have hsub : subsampleGt config.MAX_GT_INSTANCES ids ([] : List Int) ([] : List Mask) =
      ([], []) := by
    simp [subsampleGt]
  refine ⟨?_, ?_, ?_, ?_, ?_, ?_⟩ <;>
    simp [getitem, load_image_gt, default_load_mask, hsub, gtFilter_nil, pad_nil]

/-- C4: the `__getitem__` output contract: the fastai pair is the record plus
`0`, and the record's fields are, in the source's order, the molded image,
the metadata encoding the resize window, the two RPN target tensors, and the
three zero-padded ground-truth tensors. -/
theorem getitem_record_contract (ext : Externals) (config : Config)
    (ids : List Nat) (image0 : Image) (mask0 : List Mask) (class_ids0 : List Int) :
    (getitem ext config ids image0 mask0 class_ids0).2 = 0 ∧
    (getitem ext config ids image0 mask0 class_ids0).1 =
      { image := (load_image_gt ext config ids image0 mask0 class_ids0
          config.USE_MINI_MASK).1,
        image_metas := mold_meta (ext.resizeImage config image0).2.1,
        rpn_match := (ext.buildRpnTargets config.ANCHORS
          (load_image_gt ext config ids image0 mask0 class_ids0 config.USE_MINI_MASK).2.2.1
          (load_image_gt ext config ids image0 mask0 class_ids0 config.USE_MINI_MASK).2.2.2.1).1,
        rpn_bbox := (ext.buildRpnTargets config.ANCHORS
          (load_image_gt ext config ids image0 mask0 class_ids0 config.USE_MINI_MASK).2.2.1
          (load_image_gt ext config ids image0 mask0 class_ids0 config.USE_MINI_MASK).2.2.2.1).2,
        gt_class_ids := pad 0
          (load_image_gt ext config ids image0 mask0 class_ids0 config.USE_MINI_MASK).2.2.1
          config.MAX_GT_INSTANCES,
        gt_boxes := pad zeroBox
          (load_image_gt ext config ids image0 mask0 class_ids0 config.USE_MINI_MASK).2.2.2.1
          config.MAX_GT_INSTANCES,
        gt_masks := pad
          (zeroMask (if config.USE_MINI_MASK then config.MINI_MASK_SHAPE
            else config.MASK_SHAPE))
          (load_image_gt ext config ids image0 mask0 class_ids0 config.USE_MINI_MASK).2.2.2.2
          config.MAX_GT_INSTANCES } :=
  ⟨rfl, rfl⟩

/-- C1: `__getitem__` pads each ground-truth tensor to first dimension
exactly `MAX_GT_INSTANCES`; rows beyond the true instance count are zero, and
the zero box rows fail the `boxAny` validity predicate. -/
theorem getitem_pads_to_max (ext : Externals) (config : Config) (ids : List Nat)
    (image0 : Image) (mask0 : List Mask) (class_ids0 : List Int)
    (hids : ids.length = config.MAX_GT_INSTANCES) :
    (getitem ext config ids image0 mask0 class_ids0).1.gt_class_ids.length =
      config.MAX_GT_INSTANCES ∧
    (getitem ext config ids image0 mask0 class_ids0).1.gt_boxes.length =
      config.MAX_GT_INSTANCES ∧
    (getitem ext config ids image0 mask0 class_ids0).1.gt_masks.length =
      config.MAX_GT_INSTANCES ∧
    boxAny zeroBox = false ∧
    (∀ k, (load_image_gt ext config ids image0 mask0 class_ids0
        config.USE_MINI_MASK).2.2.1.length ≤ k →
      (getitem ext config ids image0 mask0 class_ids0).1.gt_class_ids.getD k 0 = 0 ∧
      (getitem ext config ids image0 mask0 class_ids0).1.gt_boxes.getD k zeroBox = zeroBox ∧
      (getitem ext config ids image0 mask0 class_ids0).1.gt_masks.getD k
          (zeroMask (if config.USE_MINI_MASK then config.MINI_MASK_SHAPE
            else config.MASK_SHAPE)) =
        zeroMask (if config.USE_MINI_MASK then config.MINI_MASK_SHAPE
          else config.MASK_SHAPE)) := by
  have hcount := load_image_gt_count_le ext config ids image0 mask0 class_ids0
    config.USE_MINI_MASK hids
  have hlen : (load_image_gt ext config ids image0 mask0 class_ids0
        config.USE_MINI_MASK).2.2.2.1.length =
      (load_image_gt ext config ids image0 mask0 class_ids0
        config.USE_MINI_MASK).2.2.1.length ∧
      (load_image_gt ext config ids image0 mask0 class_ids0
        config.USE_MINI_MASK).2.2.2.2.length =
      (load_image_gt ext config ids image0 mask0 class_ids0
        config.USE_MINI_MASK).2.2.1.length := by
    unfold load_image_gt
    simp [List.length_map]
  refine ⟨?_, ?_, ?_, rfl, ?_⟩
  · exact pad_length _ _ _ hcount
  · exact pad_length _ _ _ (le_trans (le_of_eq hlen.1) hcount)
  · exact pad_length _ _ _ (le_trans (le_of_eq hlen.2) hcount)
  · intro k hk
    exact ⟨pad_getD_right _ _ _ _ hk,
      pad_getD_right _ _ _ _ (le_trans (le_of_eq hlen.1) hk),
      pad_getD_right _ _ _ _ (le_trans (le_of_eq hlen.2) hk)⟩

/-- Witness for C1 at a concrete empty-annotation input with capacity 2. -/
theorem getitem_pads_to_max_witness :
    ([0, 1] : List Nat).length = config0.MAX_GT_INSTANCES ∧
    (getitem ext0 config0 [0, 1] [] [] []).1.gt_class_ids.length =
      config0.MAX_GT_INSTANCES ∧
    (getitem ext0 config0 [0, 1] [] [] []).1.gt_boxes.getD 1 zeroBox = zeroBox := by
  have h := getitem_pads_to_max ext0 config0 [0, 1] [] [] [] rfl
  exact ⟨rfl, h.1, (h.2.2.2.2 1 (by decide)).2.1⟩

/-- C9: over-full annotations are subsampled through a without-replacement
random index draw of size `MAX_GT_INSTANCES`: the count `load_image_gt`
returns never exceeds `MAX_GT_INSTANCES`, and each kept class id stays paired
with the mask of the same drawn index. -/
theorem load_image_gt_subsample (ext : Externals) (config : Config)
    (ids : List Nat) (image0 : Image) (mask0 : List Mask) (class_ids0 : List Int)
    (use_mini_mask : Bool)
    (hids : ids.length = config.MAX_GT_INSTANCES) (_hnodup : ids.Nodup) :
    (load_image_gt ext config ids image0 mask0 class_ids0
      use_mini_mask).2.2.1.length ≤ config.MAX_GT_INSTANCES ∧
    (subsampleGt config.MAX_GT_INSTANCES ids class_ids0 mask0).1.length ≤
      config.MAX_GT_INSTANCES ∧
    (class_ids0.length > config.MAX_GT_INSTANCES →
      ∀ k, k < config.MAX_GT_INSTANCES →
        (subsampleGt config.MAX_GT_INSTANCES ids class_ids0 mask0).1.getD k 0 =
          class_ids0.getD (ids.getD k 0) 0 ∧
        (subsampleGt config.MAX_GT_INSTANCES ids class_ids0 mask0).2.getD k [] =
          mask0.getD (ids.getD k 0) []) := by
  refine ⟨load_image_gt_count_le ext config ids image0 mask0 class_ids0
    use_mini_mask hids, subsampleGt_length_le _ _ _ _ hids, ?_⟩
  intro hgt k hk
  have hk' : k < ids.length := by rw [hids]; exact hk
  unfold subsampleGt
  rw [if_pos hgt]
  constructor
  · rw [List.getD_eq_getElem _ _ (by simpa using hk'), List.getElem_map,
      List.getD_eq_getElem _ _ hk']
  · rw [List.getD_eq_getElem _ _ (by simpa using hk'), List.getElem_map,
      List.getD_eq_getElem _ _ hk']

/-- Witness for C9: three annotated instances subsampled to capacity 2 by
the draw `[2, 0]`. -/
theorem load_image_gt_subsample_witness :
    ([2, 0] : List Nat).length = config0.MAX_GT_INSTANCES ∧
    ([2, 0] : List Nat).Nodup ∧
    (load_image_gt ext0 config0 [2, 0] [] [[[true]], [[false]], [[true, true]]]
      [5, 6, 7] false).2.2.1.length ≤ config0.MAX_GT_INSTANCES ∧
    (subsampleGt config0.MAX_GT_INSTANCES [2, 0] [5, 6, 7]
      [[[true]], [[false]], [[true, true]]]).1.getD 0 0 = 7 := by
  have h := load_image_gt_subsample ext0 config0 [2, 0] []
    [[[true]], [[false]], [[true, true]]] [5, 6, 7] false rfl (by decide)
  refine ⟨rfl, by decide, h.1, ?_⟩
  rw [(h.2.2 (by decide) 0 (by decide)).1]
  rfl

/-- C7: every ground-truth box `load_image_gt` returns passes the validity
predicate and is the rectangle extracted from the nonzero extent of the mask
it was derived from (the returned mask itself without mini-masks, the
pre-compression mask with them), and instances whose mask became empty are
removed: every returned mask still has a nonzero pixel. -/
theorem load_image_gt_box_from_mask (ext : Externals) (config : Config)
    (ids : List Nat) (image0 : Image) (mask0 : List Mask) (class_ids0 : List Int)
    (use_mini_mask : Bool) :
    (∀ b ∈ (load_image_gt ext config ids image0 mask0 class_ids0
        use_mini_mask).2.2.2.1, boxAny b = true) ∧
    (∀ m ∈ (load_image_gt ext config ids image0 mask0 class_ids0
        use_mini_mask).2.2.2.2, maskAny m = true) ∧
    (use_mini_mask = false →
      (load_image_gt ext config ids image0 mask0 class_ids0 use_mini_mask).2.2.2.1 =
        (load_image_gt ext config ids image0 mask0 class_ids0
          use_mini_mask).2.2.2.2.map extract_bbox) ∧
    (use_mini_mask = true → ∀ k,
      k < (load_image_gt ext config ids image0 mask0 class_ids0
        use_mini_mask).2.2.2.1.length →
      ∃ m0, (load_image_gt ext config ids image0 mask0 class_ids0
          use_mini_mask).2.2.2.1.getD k zeroBox = extract_bbox m0 ∧
        (load_image_gt ext config ids image0 mask0 class_ids0
          use_mini_mask).2.2.2.2.getD k [] =
          ext.mini ((load_image_gt ext config ids image0 mask0 class_ids0
            use_mini_mask).2.2.2.1.getD k zeroBox) config.MINI_MASK_SHAPE m0) := by
  simp only [load_image_gt]
  exact gtFilter_outputs _ _ _ _ _

/-- Witness for C7 at a concrete two-instance input: one mask with a nonzero
pixel survives with the box over its extent, one empty mask is removed. -/
theorem load_image_gt_box_from_mask_witness :
    (∀ b ∈ (load_image_gt ext0 config0 [] [] [[[false, true], [false, false]], [[false, false]]]
        [5, 6] false).2.2.2.1, boxAny b = true) ∧
    (∀ m ∈ (load_image_gt ext0 config0 [] [] [[[false, true], [false, false]], [[false, false]]]
        [5, 6] false).2.2.2.2, maskAny m = true) ∧
    (load_image_gt ext0 config0 [] [] [[[false, true], [false, false]], [[false, false]]]
        [5, 6] false).2.2.2.1 =
      (load_image_gt ext0 config0 [] [] [[[false, true], [false, false]], [[false, false]]]
        [5, 6] false).2.2.2.2.map extract_bbox ∧
    (load_image_gt ext0 config0 [] [] [[[false, true], [false, false]], [[false, false]]]
        [5, 6] false).2.2.1 = [5] := by
  have h := load_image_gt_box_from_mask ext0 config0 [] []
    [[[false, true], [false, false]], [[false, false]]] [5, 6] false
  exact ⟨h.1, h.2.1, h.2.2.1 rfl, by decide⟩

/-- C5: in training mode, when the head-target builder signals the
empty-batch condition (zero usable ROIs: all proposals padding or no ground
truth) and the spec-contracted heads accept zero-length batches, `forward`
does not fail: it returns the well-formed training output whose head tensors
are all zero-shaped. -/
theorem forward_zero_usable_rois (nets : Nets) (config : Config)
    (training : Bool) (images : Tensor) (image_metas : Box)
    (tgt_rpn_match tgt_rpn_bbox gt_class_ids : Tensor)
    (gt_boxes : List Box) (gt_masks : List Mask)
    (hhead : config.HEAD = true)
    (hbuild : ∀ r g b m c, nets.buildHeadTargets r g b m c = ([], [], [], []))
    (hroi : ∀ fms ps sh, nets.roialign [] fms ps sh = [])
    (hcls : nets.classifier [] = ([], [], []))
    (hmask : nets.maskHead [] = []) :
    forward nets config training
        (.train images image_metas tgt_rpn_match tgt_rpn_bbox gt_class_ids
          gt_boxes gt_masks) =
      .ok (.train {
            tgt_rpn_match := tgt_rpn_match, tgt_rpn_bbox := tgt_rpn_bbox,
            rpn_class_logits := (rpnStage nets images).2.1,
            rpn_bbox := (rpnStage nets images).2.2.2,
            target_class_ids := [], target_deltas := [], target_mask := [],
            mrcnn_class_logits := [], mrcnn_deltas := [], mrcnn_mask := [] }) := by
  simp [forward, hhead, hbuild, hroi, hcls, hmask]

/-- Witness for C5: the empty-tensor network collaborators satisfy the
empty-batch contracts and `forward` returns the zero-shaped training
output. -/
theorem forward_zero_usable_rois_witness :
    forward nets0 config0 true (.train [] zeroBox [] [] [] [] []) =
      .ok (.train {
            tgt_rpn_match := [], tgt_rpn_bbox := [],
            rpn_class_logits := (rpnStage nets0 []).2.1,
            rpn_bbox := (rpnStage nets0 []).2.2.2,
            target_class_ids := [], target_deltas := [], target_mask := [],
            mrcnn_class_logits := [], mrcnn_deltas := [], mrcnn_mask := [] }) :=
  forward_zero_usable_rois nets0 config0 true [] zeroBox [] [] [] [] [] rfl
    (fun _ _ _ _ _ => rfl) (fun _ _ _ => rfl) rfl rfl

/-- C6: in inference mode the detection filter runs before the mask head:
`forward` returns the masks computed by ROI-aligning exactly the
surviving-ROI subset `get_detections` returned, and (under the filter's
contract) that subset is a sublist of the proposals, never the full set. -/
theorem forward_masks_on_surviving_rois (nets : Nets) (config : Config)
    (training : Bool) (images : Tensor) (image_metas : Box)
    (hhead : config.HEAD = true)
    (hsub : ∀ r p d m c, ((nets.getDetections r p d m c).2.2.2).Sublist r) :
    forward nets config training (.infer images image_metas) =
      .ok (.infer
        (nets.getDetections (proposalStage nets config training images)
          (nets.classifier (nets.roialign (proposalStage nets config training images)
            (rpnStage nets images).1.dropLast config.POOL_SIZE config.IMAGE_SHAPE)).2.1
          (nets.classifier (nets.roialign (proposalStage nets config training images)
            (rpnStage nets images).1.dropLast config.POOL_SIZE config.IMAGE_SHAPE)).2.2
          image_metas config).1
        (nets.getDetections (proposalStage nets config training images)
          (nets.classifier (nets.roialign (proposalStage nets config training images)
            (rpnStage nets images).1.dropLast config.POOL_SIZE config.IMAGE_SHAPE)).2.1
          (nets.classifier (nets.roialign (proposalStage nets config training images)
            (rpnStage nets images).1.dropLast config.POOL_SIZE config.IMAGE_SHAPE)).2.2
          image_metas config).2.1
        (nets.getDetections (proposalStage nets config training images)
          (nets.classifier (nets.roialign (proposalStage nets config training images)
            (rpnStage nets images).1.dropLast config.POOL_SIZE config.IMAGE_SHAPE)).2.1
          (nets.classifier (nets.roialign (proposalStage nets config training images)
            (rpnStage nets images).1.dropLast config.POOL_SIZE config.IMAGE_SHAPE)).2.2
          image_metas config).2.2.1
        (nets.maskHead (nets.roialign
          (nets.getDetections (proposalStage nets config training images)
            (nets.classifier (nets.roialign (proposalStage nets config training images)
              (rpnStage nets images).1.dropLast config.POOL_SIZE config.IMAGE_SHAPE)).2.1
            (nets.classifier (nets.roialign (proposalStage nets config training images)
              (rpnStage nets images).1.dropLast config.POOL_SIZE config.IMAGE_SHAPE)).2.2
            image_metas config).2.2.2
          (rpnStage nets images).1.dropLast config.MASK_POOL_SIZE config.IMAGE_SHAPE))) ∧
    ((nets.getDetections (proposalStage nets config training images)
        (nets.classifier (nets.roialign (proposalStage nets config training images)
          (rpnStage nets images).1.dropLast config.POOL_SIZE config.IMAGE_SHAPE)).2.1
        (nets.classifier (nets.roialign (proposalStage nets config training images)
          (rpnStage nets images).1.dropLast config.POOL_SIZE config.IMAGE_SHAPE)).2.2
        image_metas config).2.2.2).Sublist
      (proposalStage nets config training images) := by
  refine ⟨?_, hsub _ _ _ _ _⟩
  simp [forward, hhead]

/-- Witness for C6: with the empty-tensor collaborators the surviving-ROI
subset is empty, a sublist of the (empty) proposals, and `forward` returns
the corresponding inference output. -/
theorem forward_masks_on_surviving_rois_witness :
    forward nets0 config0 false (.infer [] zeroBox) =
      .ok (.infer [] [] []
        (nets0.maskHead (nets0.roialign [] (rpnStage nets0 []).1.dropLast
          config0.MASK_POOL_SIZE config0.IMAGE_SHAPE))) ∧
    (([] : List Box)).Sublist (proposalStage nets0 config0 false []) := by
  have h := forward_masks_on_surviving_rois nets0 config0 false [] zeroBox rfl
    (fun _ _ _ _ _ => List.nil_sublist _)
  exact h

end Claims
